import Mathlib

/-!
Shallow embedding of the `DeviceManager` core of the buttplug-ST bridge
(`src/buttplug_st/core/device.py` and `src/buttplug_st/core/exceptions.py`).

The external protocol client (connect / scan / actuator command outcomes) is
modelled as an environment parameter supplied to each operation; every
operation is a pure function from the manager state and the environment to a
result (`Except` mirrors Python raise/return) paired with the updated state.
Python floats used for times, speeds and positions are modelled as `Rat`.
-/

namespace ButtplugST

/-- Outcome of one call to an actuator's `command(...)` primitive:
it returns, raises `TypeError` (unsupported arity), or raises some other
exception (I/O failure). -/
inductive CmdOutcome
  | ok
  | typeError
  | ioError
  deriving DecidableEq, Repr

/-- An actuator as seen through the external client: its Python type name and
the (deterministic) outcomes of its one- and two-argument `command` calls. -/
structure Actuator where
  typeName : String
  cmd2 : Rat → Rat → CmdOutcome
  cmd1 : Rat → CmdOutcome

/-- A device as seen through the external client: display name, the
protocol-assigned index, its ordered actuator list, and whether its
device-level `stop()` primitive raises. -/
structure Device where
  name : String
  protoIndex : Nat
  actuators : List Actuator
  stopFails : Bool

/-- The opaque client handle owned by the manager; only its `connected` flag
is observable to the manager's control flow. -/
structure ClientState where
  connected : Bool
  deriving DecidableEq, Repr

/-- Error kinds, one constructor per raise site family in the source.
`indexError` models an uncaught Python `IndexError` (a built-in, not one of
the app's exception classes). -/
inductive ErrKind
  | rateLimited            -- initialize: "Connection attempt too recent"
  | clientNone             -- scan_devices raise when the client handle is None
  | notConnected           -- scan_devices: "Not connected to Intiface"
  | connectFailed          -- initialize: ConnectorError wrapped
  | initError              -- initialize: generic exception wrapped
  | scanError              -- scan_devices: generic exception wrapped
  | deviceNotFound         -- DeviceNotFoundError
  | commandError           -- CommandError
  | validationError        -- ValidationError (HTTP layer only)
  | indexError             -- uncaught built-in IndexError
  deriving DecidableEq, Repr

/-- The app's exception classes from `exceptions.py`. -/
inductive ExcClass
  | deviceNotFoundError
  | deviceConnectionError
  | intifaceConnectionError
  | commandError
  | validationError
  | builtinError           -- not a ButtplugSTException (e.g. IndexError)
  deriving DecidableEq, Repr

/-- Which exception class each raise site uses (from `device.py`). -/
def excClass : ErrKind → ExcClass
  | .rateLimited => .intifaceConnectionError
  | .clientNone => .intifaceConnectionError
  | .notConnected => .intifaceConnectionError
  | .connectFailed => .intifaceConnectionError
  | .initError => .deviceConnectionError
  | .scanError => .deviceConnectionError
  | .deviceNotFound => .deviceNotFoundError
  | .commandError => .commandError
  | .validationError => .validationError
  | .indexError => .builtinError

/-- Class-level `status_code` defaults from `exceptions.py`. -/
def statusCode : ExcClass → Nat
  | .deviceNotFoundError => 404
  | .deviceConnectionError => 502
  | .intifaceConnectionError => 502
  | .commandError => 500
  | .validationError => 400
  | .builtinError => 500

/-- Class-level `code` defaults from `exceptions.py`. -/
def codeStr : ExcClass → String
  | .deviceNotFoundError => "device_not_found"
  | .deviceConnectionError => "device_connection_error"
  | .intifaceConnectionError => "intiface_connection_error"
  | .commandError => "command_error"
  | .validationError => "validation_error"
  | .builtinError => "internal_error"

/-- The (status_code, code) pair an error kind surfaces with. -/
def errPair (k : ErrKind) : Nat × String :=
  (statusCode (excClass k), codeStr (excClass k))

/-- The spec's error taxonomy (§7): the caller-invoked failure kinds. -/
inductive SpecKind
  | rateLimited
  | upstreamConnectionError
  | deviceNotFound
  | commandFailed
  deriving DecidableEq, Repr

/-- Which raise-site kind each spec taxonomy entry names (§4.1 / §7 matched
against the raise sites in `device.py`): `RateLimited` is the backoff raise
in `initialize`, `UpstreamConnectionError` the connect-failure raise. -/
def specKindErr : SpecKind → ErrKind
  | .rateLimited => .rateLimited
  | .upstreamConnectionError => .connectFailed
  | .deviceNotFound => .deviceNotFound
  | .commandFailed => .commandError

/-- The (status_code, code) pair a spec taxonomy kind surfaces with. -/
def specPair (k : SpecKind) : Nat × String := errPair (specKindErr k)

/-- `DeviceInfo` dataclass from `device.py`. -/
structure DeviceInfo where
  id : Nat
  name : String
  index : Nat
  actuator_count : Nat
  actuator_types : List String
  deriving DecidableEq, Repr

/-- `DeviceManager` mutable state (`__init__`). -/
structure DMState where
  client : Option ClientState
  devices : List Device
  activeDeviceIndex : Int
  inited : Bool
  lastConnectionAttempt : Rat

/-- `DeviceManager.__init__`: the initial state. -/
def init_state : DMState :=
  { client := none
    devices := []
    activeDeviceIndex := 0
    inited := false
    lastConnectionAttempt := 0 }

/-- `self._connection_retry_delay = 5.0`. -/
def connection_retry_delay : Rat := 5

/-- Python list indexing `xs[i]` (negative indices count from the end);
`none` models an `IndexError`. -/
def pyIndex (xs : List α) (i : Int) : Option α :=
  let j : Int := if i < 0 then i + (xs.length : Int) else i
  if 0 ≤ j then xs[j.toNat]? else none

/-- The `active_device` property; a `.error .indexError` models the uncaught
`IndexError` Python would raise on a non-empty list with an out-of-range
stored index. -/
def active_device_raw (st : DMState) : Except ErrKind (Option Device) :=
  if st.devices.isEmpty then .ok none
  else
    match pyIndex st.devices st.activeDeviceIndex with
    | some d => .ok (some d)
    | none => .error .indexError

/-- The device the `active_device` property yields when it does not raise. -/
def active_device (st : DMState) : Option Device :=
  match active_device_raw st with
  | .ok (some d) => some d
  | _ => none

/-- The `is_connected` property. -/
def is_connected (st : DMState) : Bool :=
  match st.client with
  | some c => c.connected
  | none => false

/-- The `has_devices` property. -/
def has_devices (st : DMState) : Bool :=
  st.devices.length > 0

/-- The `DeviceInfo` record built for device `d` at list position `i`. -/
def mk_device_info (d : Device) (i : Nat) : DeviceInfo :=
  { id := d.protoIndex
    name := d.name
    index := i
    actuator_count := d.actuators.length
    actuator_types := d.actuators.map Actuator.typeName }

/-- `DeviceManager._get_device_info`. -/
def _get_device_info (devices : List Device) (index : Int) :
    Except ErrKind DeviceInfo :=
  if h : index < 0 ∨ (devices.length : Int) ≤ index then .error .deviceNotFound
  else .ok (mk_device_info (devices.get ⟨index.toNat, by omega⟩) index.toNat)

/-- `DeviceManager.get_all_devices`: project every device, propagating a
raise from `_get_device_info` (which in fact never happens). -/
def get_all_devices (st : DMState) : Except ErrKind (List DeviceInfo) :=
  (List.range st.devices.length).mapM fun (i : Nat) =>
    _get_device_info st.devices (i : Int)

/-- `DeviceManager.get_active_device`. -/
def get_active_device (st : DMState) : Except ErrKind (Option DeviceInfo) :=
  if st.devices.isEmpty then .ok none
  else (_get_device_info st.devices st.activeDeviceIndex).map some

/-- `DeviceManager.set_active_device`. -/
def set_active_device (st : DMState) (index : Int) :
    Except ErrKind DeviceInfo × DMState :=
  if index < 0 ∨ (st.devices.length : Int) ≤ index then
    (.error .deviceNotFound, st)
  else
    (_get_device_info st.devices index, { st with activeDeviceIndex := index })

/-- Environment of one `scan_devices` call: whether the start/sleep/stop
scanning I/O raises, and the device list the external client reports. -/
structure ScanEnv where
  scanIoFails : Bool
  reported : List Device

/-- `DeviceManager.scan_devices`. -/
def scan_devices (st : DMState) (env : ScanEnv) :
    Except ErrKind (List DeviceInfo) × DMState :=
  match st.client with
  | none => (.error .clientNone, st)
  | some c =>
    if c.connected = false then (.error .notConnected, st)
    else if env.scanIoFails then (.error .scanError, st)
    else
      let st1 := { st with devices := env.reported }
      if env.reported.isEmpty then (.ok [], st1)
      else
        let st2 := { st1 with activeDeviceIndex := 0 }
        match get_all_devices st2 with
        | .ok infos => (.ok infos, st2)
        | .error _ => (.error .scanError, st2)

/-- Outcome of `client.connect(connector)` in `initialize`. -/
inductive ConnectOutcome
  | ok
  | connectorError   -- raises ConnectorError
  | otherError       -- raises some other exception
  deriving DecidableEq, Repr

/-- Environment of one `initialize` call: the `time.time()` reading, the
connect outcome, and the scan environment for the nested `scan_devices`. -/
structure InitEnv where
  now : Rat
  connectOutcome : ConnectOutcome
  scanEnv : ScanEnv

/-- The stale-handle cleanup step of `initialize`: a client that exists but
is disconnected is discarded together with the device list and the
initialized flag. -/
def cleanup_stale (st : DMState) : DMState :=
  match st.client with
  | some c =>
    if c.connected = false then
      { st with client := none, devices := [], inited := false }
    else st
  | none => st

/-- `DeviceManager.initialize`. -/
def initOp (st : DMState) (env : InitEnv) : Except ErrKind Unit × DMState :=
  if st.inited = true ∧ is_connected st = true then (.ok (), st)
  else if 0 < st.lastConnectionAttempt ∧
      env.now - st.lastConnectionAttempt < connection_retry_delay then
    (.error .rateLimited, st)
  else
    let st2 := cleanup_stale { st with lastConnectionAttempt := env.now }
    -- `self._client = ButtplugClient(...)`: a fresh, not yet connected handle
    let st3 := { st2 with client := some { connected := false } }
    match env.connectOutcome with
    | .connectorError => (.error .connectFailed, st3)
    | .otherError => (.error .initError, st3)
    | .ok =>
      let st4 := { st3 with client := some { connected := true } }
      match scan_devices st4 env.scanEnv with
      | (.error _, st5) => (.error .initError, st5)
      | (.ok _, st5) => (.ok (), { st5 with inited := true })

/-- One actuator command issued during dispatch, with its arguments as sent. -/
inductive ActCall
  | two (speed pos : Rat)
  | one (speed : Rat)
  deriving DecidableEq, Repr

/-- The intensity argument an issued command carries. -/
def ActCall.speed : ActCall → Rat
  | .two s _ => s
  | .one s => s

/-- The dispatch policy of `vibrate`: try the two-argument command when a
position is given, falling back to speed-only on `TypeError`; with no
position, a `TypeError` retries the same speed-only call. Returns the final
outcome and the list of commands issued, in order. -/
def dispatch (a : Actuator) (s : Rat) (pos : Option Rat) :
    CmdOutcome × List ActCall :=
  match pos with
  | some p =>
    match a.cmd2 s p with
    | .ok => (.ok, [.two s p])
    | .typeError => (a.cmd1 s, [.two s p, .one s])
    | .ioError => (.ioError, [.two s p])
  | none =>
    match a.cmd1 s with
    | .ok => (.ok, [.one s])
    | .typeError => (a.cmd1 s, [.one s, .one s])
    | .ioError => (.ioError, [.one s])

/-- The result record `vibrate` returns on success. -/
structure VibrateResult where
  success : Bool
  device : String
  speed : Rat
  position : Option Rat
  duration : Option Rat
  deriving DecidableEq, Repr

/-- Everything observable about one `vibrate` call: the returned value or
raised error, the actuator commands issued, and the deferred stop tasks
scheduled (actuator handle and delay). -/
structure VibOut where
  result : Except ErrKind VibrateResult
  calls : List ActCall
  deferred : List (Actuator × Rat)

/-- `max(0.0, min(1.0, x))` as in `vibrate`. -/
def clamp01 (x : Rat) : Rat := max 0 (min 1 x)

/-- `DeviceManager.vibrate`. State is not mutated, so only the observable
outcome is returned. -/
def vibrate (st : DMState) (speed : Rat) (position : Option Rat)
    (duration : Rat) : VibOut :=
  match active_device_raw st with
  | .error e => ⟨.error e, [], []⟩
  | .ok none => ⟨.error .deviceNotFound, [], []⟩
  | .ok (some device) =>
    if device.actuators.isEmpty then ⟨.error .deviceNotFound, [], []⟩
    else
      let s := clamp01 speed
      let pos := position.map clamp01
      match device.actuators.head? with
      | none => ⟨.error .commandError, [], []⟩
      | some actuator =>
        match dispatch actuator s pos with
        | (.ok, calls) =>
          ⟨.ok { success := true
                 device := device.name
                 speed := s
                 position := pos
                 duration := if 0 < duration then some duration else none },
           calls,
           if 0 < duration then [(actuator, duration)] else []⟩
        | (_, calls) => ⟨.error .commandError, calls, []⟩

/-- `DeviceManager._stop_after_delay`: sends a zero-speed command after the
delay; any failure of that command is caught and logged, never re-raised. -/
def stop_after_delay (a : Actuator) (_duration : Rat) : Except ErrKind Unit :=
  match a.cmd1 0 with
  | .ok => .ok ()
  | .typeError => .ok ()
  | .ioError => .ok ()

/-- The result record `stop` returns on success. -/
structure StopResult where
  success : Bool
  device : String
  status : String
  deriving DecidableEq, Repr

/-- `DeviceManager.stop`. State is not mutated. -/
def stop (st : DMState) : Except ErrKind StopResult :=
  match active_device_raw st with
  | .error e => .error e
  | .ok none => .error .deviceNotFound
  | .ok (some device) =>
    if device.stopFails then .error .commandError
    else .ok { success := true, device := device.name, status := "stopped" }

/-- Environment of one `shutdown` call: outcomes of the best-effort
per-device stops and of the client disconnect (all caught and logged). -/
structure ShutdownEnv where
  stopOutcomes : List Bool
  disconnectFails : Bool

/-- `DeviceManager.shutdown`: the best-effort stop/disconnect steps catch
every exception, then the handle, device list and initialized flag are
unconditionally reset. -/
def shutdown (st : DMState) (_env : ShutdownEnv) :
    Except ErrKind Unit × DMState :=
  (.ok (), { st with client := none, devices := [], inited := false })

/-- The active-index invariant: whenever the device list is non-empty, the
stored index is inside `[0, len(devices))`. -/
def Inv (st : DMState) : Prop :=
  st.devices.isEmpty = false →
    0 ≤ st.activeDeviceIndex ∧ st.activeDeviceIndex < (st.devices.length : Int)

instance (st : DMState) : Decidable (Inv st) := by
  unfold Inv; infer_instance

/-! ### Concrete fixtures used by witnesses and counterexamples -/

/-- An actuator whose commands always succeed. -/
def okActuator : Actuator :=
  { typeName := "ScalarActuator", cmd2 := fun _ _ => .ok, cmd1 := fun _ => .ok }

/-- An actuator that rejects the two-argument command with `TypeError` but
accepts the speed-only form. -/
def oneArgActuator : Actuator :=
  { typeName := "LinearActuator", cmd2 := fun _ _ => .typeError
    cmd1 := fun _ => .ok }

/-- "DeviceA" of the spec's end-to-end scenario: one actuator. -/
def deviceA : Device :=
  { name := "DeviceA", protoIndex := 0, actuators := [okActuator]
    stopFails := false }

/-- "DeviceB" of the spec's end-to-end scenario: two actuators. -/
def deviceB : Device :=
  { name := "DeviceB", protoIndex := 1, actuators := [okActuator, okActuator]
    stopFails := false }

/-- A connected manager state that knows two devices and has device 1
selected (reachable via initialize, scan and `set_active_device(1)`). -/
def connectedSt : DMState :=
  { client := some { connected := true }
    devices := [deviceA, deviceB]
    activeDeviceIndex := 1
    inited := true
    lastConnectionAttempt := 1 }

/-- A scan environment in which the I/O succeeds and the external client
reports zero devices. -/
def emptyScanEnv : ScanEnv := { scanIoFails := false, reported := [] }

/-! ### Helper lemmas -/

theorem get_device_info_in_range (devices : List Device) (i : Int)
    (h0 : 0 ≤ i) (h1 : i < (devices.length : Int)) :
    ∃ h : i.toNat < devices.length,
      _get_device_info devices i =
        .ok (mk_device_info (devices.get ⟨i.toNat, h⟩) i.toNat) := by
  refine ⟨by omega, ?_⟩
  unfold _get_device_info
  rw [dif_neg (by omega)]

theorem mapM_get_device_info_ok (devices : List Device) (l : List Nat)
    (h : ∀ i ∈ l, i < devices.length) :
    ∃ out, (l.mapM fun (i : Nat) => _get_device_info devices (i : Int)) = .ok out ∧
      out.length = l.length := by
  induction l with
  | nil => exact ⟨[], rfl, rfl⟩
  | cons a as ih =>
    have halen : a < devices.length := h a (by simp)
    obtain ⟨out, hout, hlen⟩ := ih (fun i hi => h i (by simp [hi]))
    obtain ⟨hlt, hinfo⟩ :=
      get_device_info_in_range devices (a : Int) (by omega) (by exact_mod_cast halen)
    refine ⟨mk_device_info (devices.get ⟨(a : Int).toNat, hlt⟩) (a : Int).toNat
        :: out, ?_, by simp [hlen]⟩
    rw [List.mapM_cons, hinfo, hout]
    rfl

theorem get_all_devices_ok (st : DMState) :
    ∃ out, get_all_devices st = .ok out ∧ out.length = st.devices.length := by
  have hm := mapM_get_device_info_ok st.devices (List.range st.devices.length)
      (fun i hi => List.mem_range.mp hi)
  simpa [get_all_devices] using hm

theorem pyIndex_in_range (xs : List α) (i : Int) (h0 : 0 ≤ i)
    (h1 : i < (xs.length : Int)) :
    ∃ h : i.toNat < xs.length, pyIndex xs i = some (xs.get ⟨i.toNat, h⟩) := by
  refine ⟨by omega, ?_⟩
  simp only [pyIndex]
  rw [if_neg (not_lt.mpr h0), if_pos h0]
  simp [List.getElem?_eq_getElem (show i.toNat < xs.length by omega)]

theorem cleanup_stale_fields (st : DMState) :
    (cleanup_stale st).lastConnectionAttempt = st.lastConnectionAttempt ∧
    (cleanup_stale st).activeDeviceIndex = st.activeDeviceIndex := by
  unfold cleanup_stale
  rcases hcl : st.client with _ | c
  · exact ⟨rfl, rfl⟩
  · rcases hcc : c.connected <;> simp [hcc]

theorem cleanup_stale_inv (st : DMState) (hInv : Inv st) :
    Inv (cleanup_stale st) := by
  unfold cleanup_stale
  rcases hcl : st.client with _ | c
  · exact hInv
  · dsimp only
    rcases hcc : c.connected
    · intro h; simp at h
    · exact hInv

theorem scan_devices_preserves (st : DMState) (env : ScanEnv) :
    (scan_devices st env).2.client = st.client ∧
    (scan_devices st env).2.inited = st.inited ∧
    (scan_devices st env).2.lastConnectionAttempt =
      st.lastConnectionAttempt := by
  unfold scan_devices
  split
  · exact ⟨rfl, rfl, rfl⟩
  · split
    · exact ⟨rfl, rfl, rfl⟩
    · split
      · exact ⟨rfl, rfl, rfl⟩
      · split
        · exact ⟨rfl, rfl, rfl⟩
        · dsimp only
          split <;> exact ⟨rfl, rfl, rfl⟩

theorem active_device_raw_error (st : DMState) (e : ErrKind)
    (h : active_device_raw st = .error e) : e = .indexError := by
  unfold active_device_raw at h
  split at h
  · exact Except.noConfusion h
  · split at h
    · exact Except.noConfusion h
    · injection h with h2
      exact h2.symm

theorem dispatch_calls (a : Actuator) (s : Rat) (q : Option Rat) :
    (∀ c ∈ (dispatch a s q).2, ActCall.speed c = s) ∧
    (∀ s2 p2, ActCall.two s2 p2 ∈ (dispatch a s q).2 →
      s2 = s ∧ q = some p2) := by
  rcases q with _ | p
  · rcases h : a.cmd1 s <;>
    · simp only [dispatch, h]
      constructor
      · intro c hc
        simp only [List.mem_cons, List.mem_singleton, List.not_mem_nil,
          or_false] at hc
        first
        | (rcases hc with rfl | rfl <;> rfl)
        | (rcases hc with rfl; rfl)
      · intro s2 p2 hc
        simp only [List.mem_cons, List.mem_singleton, List.not_mem_nil,
          or_false] at hc
        first
        | (rcases hc with h2 | h2 <;> exact ActCall.noConfusion h2)
        | (exact ActCall.noConfusion hc)
  · rcases h : a.cmd2 s p <;>
    · simp only [dispatch, h]
      constructor
      · intro c hc
        simp only [List.mem_cons, List.mem_singleton, List.not_mem_nil,
          or_false] at hc
        first
        | (rcases hc with rfl | rfl <;> rfl)
        | (rcases hc with rfl; rfl)
      · intro s2 p2 hc
        simp only [List.mem_cons, List.mem_singleton, List.not_mem_nil,
          or_false] at hc
        first
        | (rcases hc with h2 | h2 <;>
            first
            | (injection h2 with hs hp; exact ⟨hs, by rw [hp]⟩)
            | (exact ActCall.noConfusion h2))
        | (injection hc with hs hp; exact ⟨hs, by rw [hp]⟩)

theorem active_device_raw_of_inv (st : DMState) (hInv : Inv st)
    (hne : st.devices.isEmpty = false) :
    ∃ h : st.activeDeviceIndex.toNat < st.devices.length,
      active_device_raw st =
        .ok (some (st.devices.get ⟨st.activeDeviceIndex.toNat, h⟩)) := by
  obtain ⟨h0, h1⟩ := hInv hne
  obtain ⟨h, hp⟩ := pyIndex_in_range st.devices st.activeDeviceIndex h0 h1
  exact ⟨h, by simp [active_device_raw, hne, hp]⟩

theorem scan_devices_success (st : DMState) (env : ScanEnv) (c : ClientState)
    (hc : st.client = some c) (hconn : c.connected = true)
    (hio : env.scanIoFails = false) :
    (∃ infos, (scan_devices st env).1 = .ok infos) ∧
    (scan_devices st env).2.devices = env.reported ∧
    (env.reported.isEmpty = false →
      (scan_devices st env).2.activeDeviceIndex = 0) ∧
    (env.reported.isEmpty = true →
      (scan_devices st env).2.activeDeviceIndex = st.activeDeviceIndex) ∧
    (∃ out, get_all_devices (scan_devices st env).2 = .ok out ∧
      out.length = env.reported.length) := by
  have hall := get_all_devices_ok
    { st with devices := env.reported, activeDeviceIndex := 0 }
  obtain ⟨out, hout, hlen⟩ := hall
  by_cases hemp : env.reported.isEmpty
  · constructor
    · exact ⟨[], by simp [scan_devices, hc, hconn, hio, hemp]⟩
    · refine ⟨by simp [scan_devices, hc, hconn, hio, hemp], ?_, ?_, ?_⟩
      · intro h; rw [hemp] at h; cases h
      · intro _; simp [scan_devices, hc, hconn, hio, hemp]
      · obtain ⟨out2, hout2, hlen2⟩ :=
          get_all_devices_ok { st with devices := env.reported }
        rw [hc] at hout2
        refine ⟨out2, ?_, by simpa using hlen2⟩
        simp [scan_devices, hc, hconn, hio, hemp, hout2]
  · have hemp2 : env.reported.isEmpty = false := by
      cases h : env.reported.isEmpty
      · rfl
      · exact absurd h (by simpa [h] using hemp)
    have hscan : scan_devices st env =
        (match get_all_devices
            { st with devices := env.reported, activeDeviceIndex := 0 } with
          | .ok infos => (.ok infos,
              { st with devices := env.reported, activeDeviceIndex := 0 })
          | .error _ => (.error .scanError,
              { st with devices := env.reported, activeDeviceIndex := 0 })) := by
      simp [scan_devices, hc, hconn, hio, hemp2]
    rw [hout] at hscan
    refine ⟨⟨out, by rw [hscan]⟩, by rw [hscan], fun _ => by rw [hscan],
      fun h => ?_, ?_⟩
    · rw [hemp2] at h; cases h
    · refine ⟨out, ?_, by simpa using hlen⟩
      rw [hscan]
      simpa using hout

theorem length_pos_of_isEmpty_false (l : List α) (h : l.isEmpty = false) :
    0 < (l.length : Int) := by
  cases l with
  | nil => simp at h
  | cons a as => simp only [List.length_cons]; omega

theorem scan_devices_inv (st : DMState) (env : ScanEnv) (hInv : Inv st) :
    Inv (scan_devices st env).2 := by
  unfold scan_devices
  split
  · exact hInv
  · split
    · exact hInv
    · split
      · exact hInv
      · dsimp only
        split
        · next hemp =>
          intro h
          have h2 : env.reported.isEmpty = false := h
          rw [h2] at hemp
          cases hemp
        · next hemp =>
          have hemp2 : env.reported.isEmpty = false := by
            cases h : env.reported.isEmpty
            · rfl
            · exact absurd h hemp
          have hpos := length_pos_of_isEmpty_false env.reported hemp2
          split <;> (intro _; exact ⟨le_refl 0, hpos⟩)

theorem set_active_device_inv (st : DMState) (i : Int) (hInv : Inv st) :
    Inv (set_active_device st i).2 := by
  unfold set_active_device
  split
  · exact hInv
  · next h =>
    push_neg at h
    intro _
    dsimp only
    omega

theorem initOp_inv (st : DMState) (env : InitEnv) (hInv : Inv st) :
    Inv (initOp st env).2 := by
  unfold initOp
  split
  · exact hInv
  · split
    · exact hInv
    · dsimp only
      have h2 : Inv
          { cleanup_stale { st with lastConnectionAttempt := env.now } with
            client := some { connected := false } } := by
        have h3 := cleanup_stale_inv
          { st with lastConnectionAttempt := env.now } hInv
        exact fun h => h3 h
      split
      · exact h2
      · exact h2
      · have h4 : Inv
            { cleanup_stale { st with lastConnectionAttempt := env.now } with
              client := some { connected := true } } := fun h => h2 h
        have h5 := scan_devices_inv
          { cleanup_stale { st with lastConnectionAttempt := env.now } with
            client := some { connected := true } } env.scanEnv h4
        split <;>
        · rename_i st5 heq
          rw [heq] at h5
          exact fun h => h5 h

theorem shutdown_inv (st : DMState) (env : ShutdownEnv) :
    Inv (shutdown st env).2 := by
  intro h
  simp [shutdown] at h

theorem get_active_device_of_inv (st : DMState) (hInv : Inv st)
    (hne : st.devices.isEmpty = false) :
    ∃ info, get_active_device st = .ok (some info) := by
  obtain ⟨h0, h1⟩ := hInv hne
  obtain ⟨h, hinfo⟩ :=
    get_device_info_in_range st.devices st.activeDeviceIndex h0 h1
  refine ⟨mk_device_info (st.devices.get ⟨st.activeDeviceIndex.toNat, h⟩)
      st.activeDeviceIndex.toNat, ?_⟩
  unfold get_active_device
  rw [if_neg (by simp [hne]), hinfo]
  rfl

/-! ### C3 — set_active_device -/

/-- C3: for every integer `i`, `set_active_device(i)` fails with
`DeviceNotFound` and leaves the state unchanged when `i` is outside
`[0, len(devices))`; inside that range it succeeds, stores `i` as the active
index, and returns the `DeviceInfo` projection of the device at `i`. -/
theorem set_active_device_spec (st : DMState) (i : Int) :
    ((i < 0 ∨ (st.devices.length : Int) ≤ i) →
      set_active_device st i = (.error .deviceNotFound, st)) ∧
    (0 ≤ i → i < (st.devices.length : Int) →
      ∃ h : i.toNat < st.devices.length,
        set_active_device st i =
          (.ok (mk_device_info (st.devices.get ⟨i.toNat, h⟩) i.toNat),
           { st with activeDeviceIndex := i })) := by
  constructor
  · intro h
    unfold set_active_device
    rw [if_pos h]
  · intro h0 h1
    obtain ⟨h, hinfo⟩ := get_device_info_in_range st.devices i h0 h1
    refine ⟨h, ?_⟩
    unfold set_active_device
    rw [if_neg (by omega), hinfo]

/-- C3 witness: on the two-device state, index 5 is rejected with the state
untouched, and index 0 succeeds, selecting DeviceA. -/
theorem set_active_device_spec_witness :
    ((5 : Int) < 0 ∨ (connectedSt.devices.length : Int) ≤ 5) ∧
    set_active_device connectedSt 5 = (.error .deviceNotFound, connectedSt) ∧
    ((0 : Int) ≤ 0 ∧ (0 : Int) < (connectedSt.devices.length : Int)) ∧
    ∃ h : (0 : Int).toNat < connectedSt.devices.length,
      set_active_device connectedSt 0 =
        (.ok (mk_device_info (connectedSt.devices.get ⟨(0 : Int).toNat, h⟩)
            (0 : Int).toNat),
         { connectedSt with activeDeviceIndex := 0 }) :=
  ⟨by decide,
   (set_active_device_spec connectedSt 5).1 (by decide),
   ⟨by decide, by decide⟩,
   (set_active_device_spec connectedSt 0).2 (by decide) (by decide)⟩

/-! ### C2 — rate limiting after a failed connect -/

/-- C2: if `initialize()` reaches the connection step at time `t` and the
connect raises `ConnectorError`, then a second `initialize()` within 5
seconds of `t` fails with the rate-limit error (an
`IntifaceConnectionError`) and leaves the state unchanged — in particular no
fresh client handle is stored and the result does not depend on the second
environment's connect outcome. -/
theorem init_rate_limited_after_failure (st : DMState) (e1 e2 : InitEnv)
    (h0 : ¬(st.inited = true ∧ is_connected st = true))
    (h1 : ¬(0 < st.lastConnectionAttempt ∧
        e1.now - st.lastConnectionAttempt < connection_retry_delay))
    (hc : e1.connectOutcome = .connectorError)
    (hpos : 0 < e1.now)
    (hlt : e2.now - e1.now < connection_retry_delay) :
    (initOp st e1).1 = .error .connectFailed ∧
    (initOp st e1).2.lastConnectionAttempt = e1.now ∧
    is_connected (initOp st e1).2 = false ∧
    initOp (initOp st e1).2 e2 = (.error .rateLimited, (initOp st e1).2) := by
  have hfirst : initOp st e1 = (.error .connectFailed,
      { cleanup_stale { st with lastConnectionAttempt := e1.now } with
        client := some { connected := false } }) := by
    unfold initOp
    rw [if_neg h0, if_neg h1, hc]
  have hlast : ({ cleanup_stale { st with lastConnectionAttempt := e1.now } with
      client := some { connected := false } } : DMState).lastConnectionAttempt
      = e1.now := by
    have := (cleanup_stale_fields { st with lastConnectionAttempt := e1.now }).1
    simpa using this
  refine ⟨by rw [hfirst], by rw [hfirst]; exact hlast, by rw [hfirst]; rfl, ?_⟩
  rw [hfirst]
  unfold initOp
  rw [if_neg (by rintro ⟨-, h2⟩; simp [is_connected] at h2)]
  rw [if_pos (by rw [hlast]; exact ⟨hpos, hlt⟩)]

/-- C2 witness: from the initial state, a failed connect at time 1 followed
by a retry at time 2 hits the rate limiter without touching the state. -/
theorem init_rate_limited_after_failure_witness :
    (¬(init_state.inited = true ∧ is_connected init_state = true)) ∧
    (¬(0 < init_state.lastConnectionAttempt ∧
        (1 : Rat) - init_state.lastConnectionAttempt <
          connection_retry_delay)) ∧
    (0 : Rat) < 1 ∧ (2 : Rat) - 1 < connection_retry_delay ∧
    ((initOp init_state
        { now := 1, connectOutcome := .connectorError, scanEnv := emptyScanEnv }
        ).1 = .error .connectFailed ∧
     (initOp init_state
        { now := 1, connectOutcome := .connectorError, scanEnv := emptyScanEnv }
        ).2.lastConnectionAttempt = 1 ∧
     is_connected (initOp init_state
        { now := 1, connectOutcome := .connectorError, scanEnv := emptyScanEnv }
        ).2 = false ∧
     initOp (initOp init_state
        { now := 1, connectOutcome := .connectorError, scanEnv := emptyScanEnv }
        ).2
        { now := 2, connectOutcome := .connectorError, scanEnv := emptyScanEnv }
       = (.error .rateLimited,
          (initOp init_state
            { now := 1, connectOutcome := .connectorError
              scanEnv := emptyScanEnv }).2)) :=
  ⟨by decide, by norm_num [init_state, connection_retry_delay],
   by norm_num, by norm_num [connection_retry_delay],
   init_rate_limited_after_failure init_state
     { now := 1, connectOutcome := .connectorError, scanEnv := emptyScanEnv }
     { now := 2, connectOutcome := .connectorError, scanEnv := emptyScanEnv }
     (by decide) (by norm_num [init_state, connection_retry_delay])
     rfl (by norm_num) (by norm_num [connection_retry_delay])⟩

/-! ### C10 — backoff also applies after a successful initialize -/

/-- C10: the last-attempt timestamp is recorded before connecting, so it is
set even by a successful `initialize()`; `shutdown()` does not clear it;
hence a new `initialize()` within 5 seconds of the successful one is
rejected by the backoff guard with the state unchanged (no contact with the
external server, whatever the new environment would answer). -/
theorem backoff_after_success_and_shutdown (st : DMState) (e1 e2 : InitEnv)
    (senv : ShutdownEnv)
    (h0 : ¬(st.inited = true ∧ is_connected st = true))
    (h1 : ¬(0 < st.lastConnectionAttempt ∧
        e1.now - st.lastConnectionAttempt < connection_retry_delay))
    (hc : e1.connectOutcome = .ok)
    (hio : e1.scanEnv.scanIoFails = false)
    (hpos : 0 < e1.now)
    (hlt : e2.now - e1.now < connection_retry_delay) :
    (initOp st e1).1 = .ok () ∧
    (shutdown (initOp st e1).2 senv).2.lastConnectionAttempt = e1.now ∧
    initOp (shutdown (initOp st e1).2 senv).2 e2 =
      (.error .rateLimited, (shutdown (initOp st e1).2 senv).2) := by
  obtain ⟨⟨infos, hinfos⟩, -⟩ := scan_devices_success
    { cleanup_stale { st with lastConnectionAttempt := e1.now } with
      client := some { connected := true } }
    e1.scanEnv { connected := true } rfl rfl hio
  rcases hsc : scan_devices
      { cleanup_stale { st with lastConnectionAttempt := e1.now } with
        client := some { connected := true } } e1.scanEnv with ⟨r, st5⟩
  rw [hsc] at hinfos
  simp only at hinfos
  subst hinfos
  have hpres := scan_devices_preserves
    { cleanup_stale { st with lastConnectionAttempt := e1.now } with
      client := some { connected := true } } e1.scanEnv
  rw [hsc] at hpres
  have hlast5 : st5.lastConnectionAttempt = e1.now := by
    have h2 := hpres.2.2
    simp only at h2
    rw [h2]
    have := (cleanup_stale_fields { st with lastConnectionAttempt := e1.now }).1
    simpa using this
  have hfirst : initOp st e1 = (.ok (), { st5 with inited := true }) := by
    unfold initOp
    rw [if_neg h0, if_neg h1, hc]
    dsimp only
    rw [hsc]
  refine ⟨by rw [hfirst], by rw [hfirst]; exact hlast5, ?_⟩
  rw [hfirst]
  unfold initOp
  rw [if_neg (by rintro ⟨h2, -⟩; exact Bool.noConfusion h2)]
  rw [if_pos (by
    refine ⟨?_, ?_⟩ <;> simp only [shutdown] <;> rw [hlast5]
    · exact hpos
    · exact hlt)]

/-- C10 witness: a successful initialize at time 1 that finds DeviceA, a
shutdown, then a retry at time 3 which hits the backoff guard. -/
theorem backoff_after_success_and_shutdown_witness :
    (¬(init_state.inited = true ∧ is_connected init_state = true)) ∧
    (¬(0 < init_state.lastConnectionAttempt ∧
        (1 : Rat) - init_state.lastConnectionAttempt <
          connection_retry_delay)) ∧
    (0 : Rat) < 1 ∧ (3 : Rat) - 1 < connection_retry_delay ∧
    ((initOp init_state
        { now := 1, connectOutcome := .ok
          scanEnv := { scanIoFails := false, reported := [deviceA] } }).1 =
      .ok () ∧
     (shutdown (initOp init_state
        { now := 1, connectOutcome := .ok
          scanEnv := { scanIoFails := false, reported := [deviceA] } }).2
        { stopOutcomes := [], disconnectFails := false }
        ).2.lastConnectionAttempt = 1 ∧
     initOp (shutdown (initOp init_state
        { now := 1, connectOutcome := .ok
          scanEnv := { scanIoFails := false, reported := [deviceA] } }).2
        { stopOutcomes := [], disconnectFails := false }).2
        { now := 3, connectOutcome := .ok
          scanEnv := { scanIoFails := false, reported := [deviceA] } } =
       (.error .rateLimited,
        (shutdown (initOp init_state
          { now := 1, connectOutcome := .ok
            scanEnv := { scanIoFails := false, reported := [deviceA] } }).2
          { stopOutcomes := [], disconnectFails := false }).2)) :=
  ⟨by decide, by norm_num [init_state, connection_retry_delay],
   by norm_num, by norm_num [connection_retry_delay],
   backoff_after_success_and_shutdown init_state
     { now := 1, connectOutcome := .ok
       scanEnv := { scanIoFails := false, reported := [deviceA] } }
     { now := 3, connectOutcome := .ok
       scanEnv := { scanIoFails := false, reported := [deviceA] } }
     { stopOutcomes := [], disconnectFails := false }
     (by decide) (by norm_num [init_state, connection_retry_delay])
     rfl rfl (by norm_num) (by norm_num [connection_retry_delay])⟩

/-! ### C6 — error taxonomy status/code pairs -/

/-- C6 counterexample: the claim "any two failures of different kinds carry
different (status_code, code) pairs" is false: `RateLimited` and
`UpstreamConnectionError` are both raised as `IntifaceConnectionError`, so
they share the pair (502, "intiface_connection_error"). -/
theorem specPair_not_injective :
    ¬ (∀ k1 k2 : SpecKind, k1 ≠ k2 → specPair k1 ≠ specPair k2) :=
  fun h =>
    h .rateLimited .upstreamConnectionError (by decide) (by decide)

/-- C6 amended: `DeviceNotFound` (404, device_not_found), `CommandFailed`
(500, command_error) and the connection kinds (502, intiface_connection_error)
carry pairwise distinct status/code pairs, but `RateLimited` and
`UpstreamConnectionError` share theirs: both are raised as
`IntifaceConnectionError`. -/
theorem specPair_distinct_except_rate_limited :
    specPair .deviceNotFound ≠ specPair .commandFailed ∧
    specPair .deviceNotFound ≠ specPair .rateLimited ∧
    specPair .deviceNotFound ≠ specPair .upstreamConnectionError ∧
    specPair .commandFailed ≠ specPair .rateLimited ∧
    specPair .commandFailed ≠ specPair .upstreamConnectionError ∧
    specPair .rateLimited = specPair .upstreamConnectionError := by
  decide

/-! ### C5 — shutdown with no connection -/

/-- C5 counterexample: `shutdown()` does not restore the initial state: it
leaves `_last_connection_attempt` (and the active index) at their prior
values, so the post-shutdown state differs from the construction state. The
starting state has no connection (`client = none`). -/
theorem shutdown_not_full_reset :
    ({ init_state with lastConnectionAttempt := 10 } : DMState).client =
      none ∧
    (shutdown { init_state with lastConnectionAttempt := 10 }
        { stopOutcomes := [], disconnectFails := false }).1 = .ok () ∧
    (shutdown { init_state with lastConnectionAttempt := 10 }
        { stopOutcomes := [], disconnectFails := false }).2.lastConnectionAttempt
      = 10 ∧
    (shutdown { init_state with lastConnectionAttempt := 10 }
        { stopOutcomes := [], disconnectFails := false }).2 ≠ init_state := by
  refine ⟨rfl, rfl, rfl, fun h => ?_⟩
  have h2 := congrArg DMState.lastConnectionAttempt h
  norm_num [shutdown, init_state] at h2

/-- C5 amended: `shutdown()` never raises in any state (connection or not);
it clears the client handle, the device list and the initialized flag, but
preserves the active-device index and the last-connection-attempt timestamp;
a repeated `shutdown()` is a no-op on the already-reset state (idempotent). -/
theorem shutdown_spec (st : DMState) (env env2 : ShutdownEnv) :
    shutdown st env =
      (.ok (), { st with client := none, devices := [], inited := false }) ∧
    (shutdown st env).2.activeDeviceIndex = st.activeDeviceIndex ∧
    (shutdown st env).2.lastConnectionAttempt = st.lastConnectionAttempt ∧
    shutdown (shutdown st env).2 env2 = (.ok (), (shutdown st env).2) := by
  exact ⟨rfl, rfl, rfl, rfl⟩

/-! ### C1 — scan_devices resets the index, get_all_devices length -/

/-- C1 counterexample: a successful `scan_devices()` that discovers zero
devices does not reset the active-device index: from a reachable state with
index 1, the scan succeeds (returns `[]`) yet the index stays 1, not 0. -/
theorem scan_zero_devices_keeps_stale_index :
    (scan_devices connectedSt emptyScanEnv).1 = .ok [] ∧
    (scan_devices connectedSt emptyScanEnv).2.activeDeviceIndex = 1 := by
  exact ⟨rfl, rfl⟩

/-- C1 amended: after any successful `scan_devices()`, the device list is
replaced by exactly what the external client reports and `get_all_devices()`
returns a list of that length; the active-device index is reset to 0 whenever
at least one device is discovered, but is left at its prior value when the
scan discovers zero devices. -/
theorem scan_devices_spec (st : DMState) (env : ScanEnv) (c : ClientState)
    (hc : st.client = some c) (hconn : c.connected = true)
    (hio : env.scanIoFails = false) :
    (∃ infos, (scan_devices st env).1 = .ok infos) ∧
    (scan_devices st env).2.devices = env.reported ∧
    (env.reported.isEmpty = false →
      (scan_devices st env).2.activeDeviceIndex = 0) ∧
    (env.reported.isEmpty = true →
      (scan_devices st env).2.activeDeviceIndex = st.activeDeviceIndex) ∧
    (∃ out, get_all_devices (scan_devices st env).2 = .ok out ∧
      out.length = env.reported.length) :=
  scan_devices_success st env c hc hconn hio

/-- C1 amended witness: the theorem evaluated at the concrete connected
state and a scan reporting the two sample devices. -/
theorem scan_devices_spec_witness :
    ({ client := some { connected := true }, devices := []
       activeDeviceIndex := 0, inited := true,
       lastConnectionAttempt := 1 } : DMState).client =
        some { connected := true } ∧
    (({ connected := true } : ClientState).connected = true) ∧
    (({ scanIoFails := false, reported := [deviceA, deviceB] } :
        ScanEnv).scanIoFails = false) ∧
    ((∃ infos, (scan_devices
        { client := some { connected := true }, devices := []
          activeDeviceIndex := 0, inited := true, lastConnectionAttempt := 1 }
        { scanIoFails := false, reported := [deviceA, deviceB] }).1 =
          .ok infos) ∧
      (scan_devices
        { client := some { connected := true }, devices := []
          activeDeviceIndex := 0, inited := true, lastConnectionAttempt := 1 }
        { scanIoFails := false, reported := [deviceA, deviceB] }).2.devices =
        [deviceA, deviceB] ∧
      (([deviceA, deviceB] : List Device).isEmpty = false →
        (scan_devices
          { client := some { connected := true }, devices := []
            activeDeviceIndex := 0, inited := true, lastConnectionAttempt := 1 }
          { scanIoFails := false, reported := [deviceA, deviceB] }
          ).2.activeDeviceIndex = 0) ∧
      (([deviceA, deviceB] : List Device).isEmpty = true →
        (scan_devices
          { client := some { connected := true }, devices := []
            activeDeviceIndex := 0, inited := true, lastConnectionAttempt := 1 }
          { scanIoFails := false, reported := [deviceA, deviceB] }
          ).2.activeDeviceIndex =
          ({ client := some { connected := true }, devices := []
             activeDeviceIndex := 0, inited := true,
             lastConnectionAttempt := 1 } : DMState).activeDeviceIndex) ∧
      (∃ out, get_all_devices (scan_devices
          { client := some { connected := true }, devices := []
            activeDeviceIndex := 0, inited := true, lastConnectionAttempt := 1 }
          { scanIoFails := false, reported := [deviceA, deviceB] }).2 =
            .ok out ∧
        out.length = ([deviceA, deviceB] : List Device).length)) :=
  ⟨rfl, rfl, rfl,
    scan_devices_spec
      { client := some { connected := true }, devices := []
        activeDeviceIndex := 0, inited := true, lastConnectionAttempt := 1 }
      { scanIoFails := false, reported := [deviceA, deviceB] }
      { connected := true } rfl rfl rfl⟩

/-! ### C4 — vibrate clamps speed and position -/

/-- C4: every actuator command `vibrate` dispatches carries the intensity
`clamp01 speed`; every two-argument command carries the clamped position of
the provided position; a successful result record reports the clamped speed
and position; out-of-range inputs are never rejected (no validation
error). -/
theorem vibrate_clamps (st : DMState) (sp : Rat) (pos : Option Rat)
    (dur : Rat) :
    (∀ c ∈ (vibrate st sp pos dur).calls, ActCall.speed c = clamp01 sp) ∧
    (∀ s2 p2, ActCall.two s2 p2 ∈ (vibrate st sp pos dur).calls →
      s2 = clamp01 sp ∧ ∃ p, pos = some p ∧ p2 = clamp01 p) ∧
    (∀ r, (vibrate st sp pos dur).result = .ok r →
      r.speed = clamp01 sp ∧ r.position = pos.map clamp01) ∧
    (vibrate st sp pos dur).result ≠ .error .validationError := by
  rcases har : active_device_raw st with e | od
  · have he := active_device_raw_error st e har
    subst he
    have hvib : vibrate st sp pos dur = ⟨.error .indexError, [], []⟩ := by
      simp [vibrate, har]
    rw [hvib]
    exact ⟨by simp, by simp, by simp, by simp⟩
  · rcases od with _ | d
    · have hvib : vibrate st sp pos dur =
          ⟨.error .deviceNotFound, [], []⟩ := by
        simp [vibrate, har]
      rw [hvib]
      exact ⟨by simp, by simp, by simp, by simp⟩
    · cases hact : d.actuators.isEmpty
      · rcases hh : d.actuators.head? with _ | a
        · have hvib : vibrate st sp pos dur =
              ⟨.error .commandError, [], []⟩ := by
            simp [vibrate, har, hact, hh]
          rw [hvib]
          exact ⟨by simp, by simp, by simp, by simp⟩
        · obtain ⟨hsp, htwo⟩ := dispatch_calls a (clamp01 sp) (pos.map clamp01)
          rcases hd : dispatch a (clamp01 sp) (pos.map clamp01) with
            ⟨outc, calls⟩
          rw [hd] at hsp htwo
          have hmem : ∀ s2 p2, ActCall.two s2 p2 ∈ calls →
              s2 = clamp01 sp ∧ ∃ p, pos = some p ∧ p2 = clamp01 p := by
            intro s2 p2 hin
            obtain ⟨h1, h2⟩ := htwo s2 p2 hin
            refine ⟨h1, ?_⟩
            rcases pos with _ | p
            · exact Option.noConfusion h2
            · injection h2 with h3
              exact ⟨p, rfl, h3.symm⟩
          cases outc
          ·
            have hvib : vibrate st sp pos dur =
                ⟨.ok { success := true, device := d.name, speed := clamp01 sp
                       position := pos.map clamp01
                       duration := if 0 < dur then some dur else none },
                 calls,
                 if 0 < dur then [(a, dur)] else []⟩ := by
              simp [vibrate, har, hact, hh, hd]
            rw [hvib]
            refine ⟨hsp, hmem, ?_, ?_⟩
            · intro r hr
              injection hr with hr
              subst hr
              exact ⟨rfl, rfl⟩
            · intro h
              exact Except.noConfusion h
          ·
            have hvib : vibrate st sp pos dur =
                ⟨.error .commandError, calls, []⟩ := by
              simp [vibrate, har, hact, hh, hd]
            rw [hvib]
            refine ⟨hsp, hmem, ?_, ?_⟩
            · intro r hr
              exact Except.noConfusion hr
            · intro h
              injection h with h2
              exact ErrKind.noConfusion h2
          ·
            have hvib : vibrate st sp pos dur =
                ⟨.error .commandError, calls, []⟩ := by
              simp [vibrate, har, hact, hh, hd]
            rw [hvib]
            refine ⟨hsp, hmem, ?_, ?_⟩
            · intro r hr
              exact Except.noConfusion hr
            · intro h
              injection h with h2
              exact ErrKind.noConfusion h2
      · have hvib : vibrate st sp pos dur =
            ⟨.error .deviceNotFound, [], []⟩ := by
          simp [vibrate, har, hact]
        rw [hvib]
        exact ⟨by simp, by simp, by simp, by simp⟩

/-- C4 witness: speed 1.5 with position -0.2 on the two-device state
dispatches a single two-argument command with intensity 1 and position 0,
and the result record reports the clamped values. -/
theorem vibrate_clamps_witness :
    clamp01 (3 / 2) = 1 ∧ clamp01 (-(1 / 5)) = 0 ∧
    (∀ c ∈ (vibrate connectedSt (3 / 2) (some (-(1 / 5))) 0).calls,
      ActCall.speed c = clamp01 (3 / 2)) ∧
    (∀ s2 p2, ActCall.two s2 p2 ∈
        (vibrate connectedSt (3 / 2) (some (-(1 / 5))) 0).calls →
      s2 = clamp01 (3 / 2) ∧
      ∃ p, (some (-(1 / 5) : Rat)) = some p ∧ p2 = clamp01 p) ∧
    (∀ r, (vibrate connectedSt (3 / 2) (some (-(1 / 5))) 0).result = .ok r →
      r.speed = clamp01 (3 / 2) ∧
      r.position = (some (-(1 / 5) : Rat)).map clamp01) ∧
    (vibrate connectedSt (3 / 2) (some (-(1 / 5))) 0).result ≠
      .error .validationError :=
  ⟨by norm_num [clamp01, min_def, max_def],
   by norm_num [clamp01, min_def, max_def],
   (vibrate_clamps connectedSt (3 / 2) (some (-(1 / 5))) 0).1,
   (vibrate_clamps connectedSt (3 / 2) (some (-(1 / 5))) 0).2.1,
   (vibrate_clamps connectedSt (3 / 2) (some (-(1 / 5))) 0).2.2.1,
   (vibrate_clamps connectedSt (3 / 2) (some (-(1 / 5))) 0).2.2.2⟩

/-! ### C7 — vibrate DeviceNotFound iff no usable active device -/

/-- C7: under the active-index invariant, `vibrate` fails with
`DeviceNotFound` exactly when the device list is empty or the active device
exposes zero actuators; with a usable active device the call either succeeds
or fails with `CommandFailed`, never `DeviceNotFound`. -/
theorem vibrate_device_not_found_iff (st : DMState) (sp : Rat)
    (pos : Option Rat) (dur : Rat) (hInv : Inv st) :
    ((vibrate st sp pos dur).result = .error .deviceNotFound ↔
      st.devices.isEmpty = true ∨
        ∃ d, active_device st = some d ∧ d.actuators.isEmpty = true) ∧
    (∀ d, active_device st = some d → d.actuators.isEmpty = false →
      (∃ r, (vibrate st sp pos dur).result = .ok r) ∨
        (vibrate st sp pos dur).result = .error .commandError) := by
  by_cases hemp : st.devices.isEmpty
  · have har : active_device_raw st = .ok none := by
      simp [active_device_raw, hemp]
    have hres : (vibrate st sp pos dur).result = .error .deviceNotFound := by
      simp [vibrate, har]
    constructor
    · rw [hres]
      exact ⟨fun _ => .inl hemp, fun _ => rfl⟩
    · intro d hd
      exact absurd hd (by simp [active_device, har])
  · have hemp2 : st.devices.isEmpty = false := by
      cases h : st.devices.isEmpty
      · rfl
      · exact absurd h hemp
    obtain ⟨hlt, hraw⟩ := active_device_raw_of_inv st hInv hemp2
    rcases har : active_device_raw st with e | od
    · rw [har] at hraw
      exact Except.noConfusion hraw
    · rcases od with _ | d
      · rw [har] at hraw
        injection hraw with h2
        exact Option.noConfusion h2
      · have hactive : active_device st = some d := by
          simp [active_device, har]
        cases hact : d.actuators.isEmpty
        · obtain ⟨a, hh⟩ : ∃ a, d.actuators.head? = some a := by
            rcases hl : d.actuators with _ | ⟨a, as⟩
            · rw [hl] at hact; simp at hact
            · exact ⟨a, by simp [hl]⟩
          rcases hd : dispatch a (clamp01 sp) (pos.map clamp01) with
            ⟨outc, calls⟩
          have hback : st.devices.isEmpty = true ∨
              (∃ d2, active_device st = some d2 ∧
                d2.actuators.isEmpty = true) → False := by
            rintro (h | ⟨d2, hd2, hde⟩)
            · rw [hemp2] at h; cases h
            · rw [hactive] at hd2
              injection hd2 with hd3
              rw [← hd3] at hde
              rw [hact] at hde
              cases hde
          cases outc
          ·
            have hres : (vibrate st sp pos dur).result =
                .ok { success := true, device := d.name, speed := clamp01 sp
                      position := pos.map clamp01
                      duration := if 0 < dur then some dur else none } := by
              simp [vibrate, har, hact, hh, hd]
            refine ⟨?_, fun d2 hd2 hde => .inl ⟨_, hres⟩⟩
            rw [hres]
            exact ⟨fun h => Except.noConfusion h, fun h => absurd h hback⟩
          ·
            have hres : (vibrate st sp pos dur).result =
                .error .commandError := by
              simp [vibrate, har, hact, hh, hd]
            refine ⟨?_, fun d2 hd2 hde => .inr hres⟩
            rw [hres]
            refine ⟨fun h => ?_, fun h => absurd h hback⟩
            injection h with h2
            exact ErrKind.noConfusion h2
          ·
            have hres : (vibrate st sp pos dur).result =
                .error .commandError := by
              simp [vibrate, har, hact, hh, hd]
            refine ⟨?_, fun d2 hd2 hde => .inr hres⟩
            rw [hres]
            refine ⟨fun h => ?_, fun h => absurd h hback⟩
            injection h with h2
            exact ErrKind.noConfusion h2
        · have hres : (vibrate st sp pos dur).result =
              .error .deviceNotFound := by
            simp [vibrate, har, hact]
          constructor
          · rw [hres]
            exact ⟨fun _ => .inr ⟨d, hactive, hact⟩, fun _ => rfl⟩
          · intro d2 hd2 hde
            rw [hactive] at hd2
            injection hd2 with hd3
            rw [← hd3] at hde
            rw [hact] at hde
            cases hde

/-- C7 witness: the two-device state satisfies the invariant; its active
device DeviceB has actuators, so vibrate succeeds (is not DeviceNotFound). -/
theorem vibrate_device_not_found_iff_witness :
    Inv connectedSt ∧
    (((vibrate connectedSt (1 / 2) none 0).result =
        .error .deviceNotFound ↔
      connectedSt.devices.isEmpty = true ∨
        ∃ d, active_device connectedSt = some d ∧
          d.actuators.isEmpty = true) ∧
     (∀ d, active_device connectedSt = some d →
        d.actuators.isEmpty = false →
        (∃ r, (vibrate connectedSt (1 / 2) none 0).result = .ok r) ∨
          (vibrate connectedSt (1 / 2) none 0).result =
            .error .commandError)) :=
  ⟨by decide,
   vibrate_device_not_found_iff connectedSt (1 / 2) none 0 (by decide)⟩

/-! ### C8 — deferred stop is fire-and-forget -/

/-- C8: when the dispatch succeeds and `duration > 0`, `vibrate` returns the
success record (device name, clamped speed and position, the duration)
immediately, merely scheduling the deferred stop task; and
`_stop_after_delay` catches any failure of the zero-speed command, so it
never raises to any caller. -/
theorem vibrate_deferred_spec (st : DMState) (sp : Rat) (pos : Option Rat)
    (dur : Rat) (d : Device) (a : Actuator)
    (hd : active_device_raw st = .ok (some d))
    (ha : d.actuators.head? = some a)
    (hok : (dispatch a (clamp01 sp) (pos.map clamp01)).1 = .ok)
    (hdur : 0 < dur) :
    (vibrate st sp pos dur).result =
      .ok { success := true, device := d.name, speed := clamp01 sp
            position := pos.map clamp01, duration := some dur } ∧
    (vibrate st sp pos dur).deferred = [(a, dur)] ∧
    (∀ a2 dur2, stop_after_delay a2 dur2 = .ok ()) := by
  have hact : d.actuators.isEmpty = false := by
    rcases hl : d.actuators with _ | ⟨b, bs⟩
    · rw [hl] at ha; exact Option.noConfusion ha
    · rfl
  rcases hdisp : dispatch a (clamp01 sp) (pos.map clamp01) with ⟨outc, calls⟩
  rw [hdisp] at hok
  simp only at hok
  subst hok
  refine ⟨?_, ?_, ?_⟩
  · simp [vibrate, hd, hact, ha, hdisp, hdur]
  · simp [vibrate, hd, hact, ha, hdisp, hdur]
  · intro a2 dur2
    unfold stop_after_delay
    rcases a2.cmd1 0 <;> rfl

/-- C8 witness: vibrating DeviceB at speed 0.7, position 0.3 for 2 seconds
succeeds immediately and schedules one deferred stop of its actuator. -/
theorem vibrate_deferred_spec_witness :
    active_device_raw connectedSt = .ok (some deviceB) ∧
    deviceB.actuators.head? = some okActuator ∧
    (dispatch okActuator (clamp01 (7 / 10))
      ((some (3 / 10 : Rat)).map clamp01)).1 = .ok ∧
    (0 : Rat) < 2 ∧
    ((vibrate connectedSt (7 / 10) (some (3 / 10)) 2).result =
      .ok { success := true, device := deviceB.name, speed := clamp01 (7 / 10)
            position := (some (3 / 10 : Rat)).map clamp01
            duration := some 2 } ∧
     (vibrate connectedSt (7 / 10) (some (3 / 10)) 2).deferred =
      [(okActuator, 2)] ∧
     (∀ a2 dur2, stop_after_delay a2 dur2 = .ok ())) :=
  ⟨rfl, rfl, rfl, by norm_num,
   vibrate_deferred_spec connectedSt (7 / 10) (some (3 / 10)) 2 deviceB
     okActuator rfl rfl rfl (by norm_num)⟩

/-! ### C9 — the active-index invariant -/

/-- C9: every state-changing operation preserves the invariant "non-empty
device list implies the active index is in range", and under it the
`active_device` property and `get_active_device` never hit an out-of-range
access: both yield a value exactly when the device list is non-empty and
`None` exactly when it is empty. -/
theorem active_index_invariant (st : DMState) (hInv : Inv st) :
    (∀ env, Inv (scan_devices st env).2) ∧
    (∀ i, Inv (set_active_device st i).2) ∧
    (∀ env, Inv (initOp st env).2) ∧
    (∀ env, Inv (shutdown st env).2) ∧
    (st.devices.isEmpty = true →
      active_device_raw st = .ok none ∧ get_active_device st = .ok none) ∧
    (st.devices.isEmpty = false →
      (∃ d, active_device_raw st = .ok (some d)) ∧
      (∃ info, get_active_device st = .ok (some info))) := by
  refine ⟨fun env => scan_devices_inv st env hInv,
    fun i => set_active_device_inv st i hInv,
    fun env => initOp_inv st env hInv,
    fun env => shutdown_inv st env,
    fun hemp => ⟨by simp [active_device_raw, hemp],
      by simp [get_active_device, hemp]⟩,
    fun hne => ⟨?_, get_active_device_of_inv st hInv hne⟩⟩
  obtain ⟨h, hh⟩ := active_device_raw_of_inv st hInv hne
  exact ⟨_, hh⟩

/-- C9 witness: the invariant holds for the two-device state with index 1,
and the conclusions follow from the theorem applied there. -/
theorem active_index_invariant_witness :
    Inv connectedSt ∧
    ((∀ env, Inv (scan_devices connectedSt env).2) ∧
     (∀ i, Inv (set_active_device connectedSt i).2) ∧
     (∀ env, Inv (initOp connectedSt env).2) ∧
     (∀ env, Inv (shutdown connectedSt env).2) ∧
     (connectedSt.devices.isEmpty = true →
       active_device_raw connectedSt = .ok none ∧
       get_active_device connectedSt = .ok none) ∧
     (connectedSt.devices.isEmpty = false →
       (∃ d, active_device_raw connectedSt = .ok (some d)) ∧
       (∃ info, get_active_device connectedSt = .ok (some info)))) :=
  ⟨by decide, active_index_invariant connectedSt (by decide)⟩

end ButtplugST
